import Mathlib

/-!
Verification development for the 3D animation module of the
`alfinohatta/mitski-3dspace` repository (`src/js/three-animations.js`).

The module is embedded shallowly:

* machine floats become rationals (`ℚ`); `Math.PI` is the exact dyadic
  rational value of the IEEE-754 double stored in `Math.PI`;
* `Math.sin` / `Math.cos` are transcendental, so the whole development is
  parametrised over functions `sinF cosF : ℚ → ℚ`; no claim below depends
  on their values;
* `Math.random()` draws are passed in explicitly, one field per call site,
  in the source order of `createFloatingGeometry`;
* the browser frame scheduler (`requestAnimationFrame` /
  `cancelAnimationFrame`) is part of the state: a list of outstanding
  request handles plus a counter of fresh handles (browser handles are
  positive, so the JS truthiness test `if (this.animationId)` is modelled
  by an `Option`);
* rendering (`renderer.render`, `camera.lookAt`) has no observable effect
  on the modelled state and is dropped; resource release is tracked by
  counters so that `dispose` stays observable.
-/

/-- A 3-vector of rational coordinates (THREE.Vector3 / Euler). -/
structure Vec3 where
  x : ℚ
  y : ℚ
  z : ℚ
deriving DecidableEq

/-- A material color: either an RGB hex value (as passed to the
MeshPhongMaterial constructor) or an HSL triple (as set by
`material.color.setHSL`). -/
inductive Color where
  | rgbHex (value : ℕ)
  | hsl (h s l : ℚ)
deriving DecidableEq

/-- The fields of the MeshPhongMaterial that the module constructs. -/
structure Material where
  color : Color
  shininess : ℚ
  transparent : Bool
  opacity : ℚ
deriving DecidableEq

/-- The `mesh.userData` animation profile fixed at creation time. -/
structure UserData where
  rotationSpeed : Vec3
  floatSpeed : ℚ
  floatAmount : ℚ
  originalPosition : Vec3
  scale : ℚ
  pulseSpeed : ℚ
deriving DecidableEq

/-- The geometric primitives built in `createFloatingGeometry`, one
constructor per THREE geometry class used by the switch. -/
inductive Geometry where
  | sphereGeometry (radius : ℚ) (widthSegments heightSegments : ℕ)
  | boxGeometry (width height depth : ℚ)
  | torusGeometry (radius tube : ℚ) (radialSegments tubularSegments : ℕ)
  | octahedronGeometry (radius : ℚ)
  | icosahedronGeometry (radius : ℚ) (detail : ℕ)
  | tetrahedronGeometry (radius : ℚ)
deriving DecidableEq

/-- One THREE.Mesh as the module uses it. -/
structure Mesh where
  geometry : Geometry
  material : Material
  position : Vec3
  rotation : Vec3
  scale : Vec3
  userData : UserData
deriving DecidableEq

/-- The `options` argument of `createFloatingGeometry`: absent fields fall
back to the defaults `{size: 0.8, segments: 32, detail: 0}`. -/
structure GeometryOptions where
  size : Option ℚ := none
  segments : Option ℕ := none
  detail : Option ℕ := none
deriving DecidableEq

/-- The merged `config = { ...defaults, ...options }`. -/
structure GeometryConfig where
  size : ℚ
  segments : ℕ
  detail : ℕ
deriving DecidableEq

/-- `{ ...defaults, ...options }` of `createFloatingGeometry`. -/
def mergeConfig (options : GeometryOptions) : GeometryConfig :=
  { size := options.size.getD (4/5)
    segments := options.segments.getD 32
    detail := options.detail.getD 0 }

/-- The `Math.random()` draws consumed by one `createFloatingGeometry`
call, named in source order. -/
structure RandomDraws where
  colorPick : ℚ
  posX : ℚ
  posY : ℚ
  posZ : ℚ
  rotX : ℚ
  rotY : ℚ
  rotZ : ℚ
  rotSpeedX : ℚ
  rotSpeedY : ℚ
  rotSpeedZ : ℚ
  floatSpeedDraw : ℚ
  floatAmountDraw : ℚ
  pulseSpeedDraw : ℚ
deriving DecidableEq

/-- The exact rational value of the IEEE-754 double `Math.PI`
(884279719003555 / 2^48). -/
def mathPI : ℚ := 884279719003555 / 281474976710656

/-- JS `x % 1`: the remainder truncates toward zero, matching
`x - Math.trunc(x)`. -/
def jsMod1 (x : ℚ) : ℚ := if 0 ≤ x then x - (⌊x⌋ : ℚ) else x - (⌈x⌉ : ℚ)

/-- The `switch(type)` of `createFloatingGeometry`: six recognized shape
kinds, the `default` branch building the same sphere as the `'sphere'`
case. -/
def createGeometry (typ : String) (config : GeometryConfig) : Geometry :=
  match typ with
  | "sphere" => .sphereGeometry config.size config.segments config.segments
  | "cube" => .boxGeometry config.size config.size config.size
  | "torus" => .torusGeometry (config.size * (7/10)) (config.size * (3/10)) 16 100
  | "octahedron" => .octahedronGeometry config.size
  | "icosahedron" => .icosahedronGeometry config.size config.detail
  | "tetrahedron" => .tetrahedronGeometry config.size
  | _ => .sphereGeometry config.size config.segments config.segments

/-- The `types` array of `addRandomObjects` (the six supported kinds). -/
def supportedTypes : List String :=
  ["sphere", "cube", "torus", "octahedron", "icosahedron", "tetrahedron"]

/-- Constructor tag of a geometry, used to separate the six primitives. -/
def geometryTag : Geometry → ℕ
  | .sphereGeometry _ _ _ => 0
  | .boxGeometry _ _ _ => 1
  | .torusGeometry _ _ _ _ => 2
  | .octahedronGeometry _ => 3
  | .icosahedronGeometry _ _ => 4
  | .tetrahedronGeometry _ => 5

/-- The MeshPhongMaterial built in `createFloatingGeometry`:
`color: Math.random() > 0.5 ? this.color1 : this.color2`, with the fixed
shininess / transparency / opacity literals. -/
def mkMaterial (color1 color2 : ℕ) (draw : ℚ) : Material :=
  { color := .rgbHex (if draw > 1/2 then color1 else color2)
    shininess := 100
    transparent := true
    opacity := 4/5 }

/-- The mesh built by `createFloatingGeometry`: geometry from the switch,
random color, random position `(r-0.5)*6, (r-0.5)*6, (r-0.5)*3`, random
rotation `r*PI*2` per axis, and the `userData` animation profile. A fresh
THREE.Mesh starts with scale `(1,1,1)`. -/
def mkFloatingMesh (color1 color2 : ℕ) (typ : String) (options : GeometryOptions)
    (draws : RandomDraws) : Mesh :=
  let config := mergeConfig options
  let position : Vec3 :=
    { x := (draws.posX - 1/2) * 6
      y := (draws.posY - 1/2) * 6
      z := (draws.posZ - 1/2) * 3 }
  { geometry := createGeometry typ config
    material := mkMaterial color1 color2 draws.colorPick
    position := position
    rotation :=
      { x := draws.rotX * mathPI * 2
        y := draws.rotY * mathPI * 2
        z := draws.rotZ * mathPI * 2 }
    scale := { x := 1, y := 1, z := 1 }
    userData :=
      { rotationSpeed :=
          { x := (draws.rotSpeedX - 1/2) * (1/50)
            y := (draws.rotSpeedY - 1/2) * (1/50)
            z := (draws.rotSpeedZ - 1/2) * (1/50) }
        floatSpeed := draws.floatSpeedDraw * (1/100) + 1/200
        floatAmount := draws.floatAmountDraw * (1/2) + 1/5
        originalPosition := position
        scale := config.size
        pulseSpeed := draws.pulseSpeedDraw * (1/50) + 1/100 } }

/-- The per-object body of the `objects.forEach` in `animate`: advance
rotation by the fixed per-axis speed, recompute the float offset on `y`
relative to `originalPosition`, set the pulsing scalar scale, and shift
the material color to `setHSL((time*0.1 + index*0.1) % 1, 0.7, 0.6)`. -/
def updateObject (sinF : ℚ → ℚ) (time : ℚ) (index : ℕ) (obj : Mesh) : Mesh :=
  let floatOffset := sinF (time * obj.userData.floatSpeed + index) * obj.userData.floatAmount * (1/10)
  let pulse := 1 + sinF (time * obj.userData.pulseSpeed + index) * (1/10)
  let hue := jsMod1 (time * (1/10) + (index : ℚ) * (1/10))
  { obj with
      rotation :=
        { x := obj.rotation.x + obj.userData.rotationSpeed.x
          y := obj.rotation.y + obj.userData.rotationSpeed.y
          z := obj.rotation.z + obj.userData.rotationSpeed.z }
      position := { obj.position with y := obj.userData.originalPosition.y + floatOffset }
      scale :=
        { x := obj.userData.scale * pulse
          y := obj.userData.scale * pulse
          z := obj.userData.scale * pulse }
      material := { obj.material with color := .hsl hue (7/10) (3/5) } }

/-- `forEach` with the element index, as used by `animate`. -/
def mapIdx (f : ℕ → Mesh → Mesh) : ℕ → List Mesh → List Mesh
  | _, [] => []
  | n, o :: rest => f n o :: mapIdx f (n + 1) rest

/-- The full `objects.forEach((obj, index) => ...)` pass of `animate`. -/
def ThreeJSAnimator.animateObjects (sinF : ℚ → ℚ) (time : ℚ) (objs : List Mesh) : List Mesh :=
  mapIdx (updateObject sinF time) 0 objs

/-- One ThreeJSAnimator instance together with its slice of the browser
frame scheduler. `pendingFrames` holds the handles of outstanding
`requestAnimationFrame` requests (browser handles are positive and
unique, hence the fresh-handle counter starting at 1). -/
structure AnimatorState where
  color1 : ℕ
  color2 : ℕ
  objects : List Mesh
  isPlaying : Bool
  animationId : Option ℕ
  pendingFrames : List ℕ
  nextHandle : ℕ
  cameraPosition : Vec3
  rendererDisposed : Bool
  freedGeometries : ℕ
  freedMaterials : ℕ
deriving DecidableEq

/-- `requestAnimationFrame`: registers a fresh handle and returns it. -/
def requestFrame (s : AnimatorState) : AnimatorState × ℕ :=
  ({ s with pendingFrames := s.pendingFrames ++ [s.nextHandle]
            nextHandle := s.nextHandle + 1 }, s.nextHandle)

/-- `cancelAnimationFrame(handle)`: drops the request with that handle
(handles are unique, so filtering is exact). -/
def cancelFrame (handle : ℕ) (s : AnimatorState) : AnimatorState :=
  { s with pendingFrames := s.pendingFrames.filter (fun h => h ≠ handle) }

/-- `ThreeJSAnimator.animate`: returns immediately unless playing;
otherwise schedules the next frame (storing its handle in
`animationId`), updates every owned object, and moves the camera
(`renderer.render` has no modelled effect). -/
def ThreeJSAnimator.animate (sinF cosF : ℚ → ℚ) (time : ℚ) (s : AnimatorState) : AnimatorState :=
  if s.isPlaying then
    let req := requestFrame s
    let s1 := { req.1 with animationId := some req.2 }
    let s2 := { s1 with objects := ThreeJSAnimator.animateObjects sinF time s1.objects }
    { s2 with cameraPosition :=
        { x := sinF (time * (1/10)) * (1/2)
          y := cosF (time * (3/20)) * (3/10)
          z := s2.cameraPosition.z } }
  else s

/-- `ThreeJSAnimator.play`: no-op if already playing, otherwise raises the
flag and calls `animate` synchronously. -/
def ThreeJSAnimator.play (sinF cosF : ℚ → ℚ) (time : ℚ) (s : AnimatorState) : AnimatorState :=
  if s.isPlaying then s
  else ThreeJSAnimator.animate sinF cosF time { s with isPlaying := true }

/-- `ThreeJSAnimator.pause`: lowers the flag and cancels the outstanding
request, if `animationId` holds one (it is never reset to null). -/
def ThreeJSAnimator.pause (s : AnimatorState) : AnimatorState :=
  let s1 := { s with isPlaying := false }
  match s1.animationId with
  | some h => cancelFrame h s1
  | none => s1

/-- `ThreeJSAnimator.createFloatingGeometry`: builds one mesh, adds it to
the scene and pushes it onto `objects`; returns the mesh. -/
def ThreeJSAnimator.createFloatingGeometry (typ : String) (options : GeometryOptions)
    (draws : RandomDraws) (s : AnimatorState) : AnimatorState × Mesh :=
  let mesh := mkFloatingMesh s.color1 s.color2 typ options draws
  ({ s with objects := s.objects ++ [mesh] }, mesh)

/-- `ThreeJSAnimator.dispose`: pause, release every owned object's
geometry and material, remove it from the scene, release the renderer,
and clear `objects`. Every mesh the module builds has a geometry and a
material, so both truthiness guards pass. -/
def ThreeJSAnimator.dispose (s : AnimatorState) : AnimatorState :=
  let s1 := ThreeJSAnimator.pause s
  { s1 with
      freedGeometries := s1.freedGeometries + s1.objects.length
      freedMaterials := s1.freedMaterials + s1.objects.length
      rendererDisposed := true
      objects := [] }

/-- The ThreeJSAnimator constructor on a present canvas: fields
initialized (`isPlaying = true`, empty object list, camera at z = 5),
then `animate()` runs once. -/
def ThreeJSAnimator.new (sinF cosF : ℚ → ℚ) (time : ℚ) (color1 color2 : ℕ) : AnimatorState :=
  ThreeJSAnimator.animate sinF cosF time
    { color1 := color1
      color2 := color2
      objects := []
      isPlaying := true
      animationId := none
      pendingFrames := []
      nextHandle := 1
      cameraPosition := { x := 0, y := 0, z := 5 }
      rendererDisposed := false
      freedGeometries := 0
      freedMaterials := 0 }

/-- The threshold the IntersectionObserver is created with
(`{ threshold: 0.1 }`). -/
def intersectionThreshold : ℚ := 1/10

/-- A binding together with the last values reported by its two
visibility sources (document hidden flag, element intersection
fraction). -/
structure GateState where
  binding : AnimatorState
  documentHidden : Bool
  lastFraction : ℚ
deriving DecidableEq

/-- The observable events of one binding: a scheduled frame firing, the
public play/pause/dispose calls, and the two visibility listeners wired
in `setupEventListeners`. -/
inductive AnimatorEvent where
  | frameFired (time : ℚ)
  | playCalled (time : ℚ)
  | pauseCalled
  | disposeCalled
  | visibilityChanged (hidden : Bool) (time : ℚ)
  | intersectionChanged (fraction : ℚ) (time : ℚ)

/-- A pending frame request firing: the fired handle leaves the pending
set and the stored callback `() => this.animate()` runs. -/
def fireFrame (sinF cosF : ℚ → ℚ) (time : ℚ) (s : AnimatorState) : AnimatorState :=
  match s.pendingFrames with
  | [] => s
  | _ :: rest => ThreeJSAnimator.animate sinF cosF time { s with pendingFrames := rest }

/-- One event step. The `visibilitychange` listener pauses when
`document.hidden` and plays otherwise; the IntersectionObserver callback
plays when the element intersects at the configured threshold and pauses
otherwise. Each listener acts on its own reading alone. -/
def stepGate (sinF cosF : ℚ → ℚ) (g : GateState) (e : AnimatorEvent) : GateState :=
  match e with
  | .frameFired t => { g with binding := fireFrame sinF cosF t g.binding }
  | .playCalled t => { g with binding := ThreeJSAnimator.play sinF cosF t g.binding }
  | .pauseCalled => { g with binding := ThreeJSAnimator.pause g.binding }
  | .disposeCalled => { g with binding := ThreeJSAnimator.dispose g.binding }
  | .visibilityChanged hidden t =>
      { g with documentHidden := hidden
               binding :=
                 if hidden then ThreeJSAnimator.pause g.binding
                 else ThreeJSAnimator.play sinF cosF t g.binding }
  | .intersectionChanged q t =>
      { g with lastFraction := q
               binding :=
                 if intersectionThreshold ≤ q then ThreeJSAnimator.play sinF cosF t g.binding
                 else ThreeJSAnimator.pause g.binding }

/-- Initial gate state for a freshly constructed binding: document
foregrounded, element on-screen, binding created by the constructor. -/
def GateState.init (sinF cosF : ℚ → ℚ) (time : ℚ) (color1 color2 : ℕ) : GateState :=
  { binding := ThreeJSAnimator.new sinF cosF time color1 color2
    documentHidden := false
    lastFraction := 1 }

/-- Run a sequence of events against a gate state. -/
def runGate (sinF cosF : ℚ → ℚ) (g : GateState) (events : List AnimatorEvent) : GateState :=
  events.foldl (stepGate sinF cosF) g

/-- Zero stand-ins for `Math.sin` / `Math.cos` used to instantiate the
development on concrete inputs (consistent with the true functions at 0). -/
def sinZero : ℚ → ℚ := fun _ => 0

/-- Zero stand-in for `Math.cos` on concrete inputs. -/
def cosZero : ℚ → ℚ := fun _ => 0

/-- One entry of `AnimationManager.cardConfigs`. -/
structure CardConfig where
  id : String
  colorA : ℕ
  colorB : ℕ
deriving DecidableEq

/-- The 21 card configurations of the AnimationManager constructor. -/
def AnimationManager.cardConfigs : List CardConfig :=
  [ { id := "about-canvas-1", colorA := 0x00FFFF, colorB := 0x6600CC }
  , { id := "about-canvas-2", colorA := 0xFF00FF, colorB := 0x00CC66 }
  , { id := "about-canvas-3", colorA := 0xFFFF00, colorB := 0xFF6600 }
  , { id := "services-canvas-1", colorA := 0x00CC66, colorB := 0x00FFFF }
  , { id := "services-canvas-2", colorA := 0xFF6600, colorB := 0xFF00FF }
  , { id := "services-canvas-3", colorA := 0x6600CC, colorB := 0xFFFF00 }
  , { id := "services-canvas-4", colorA := 0x00FFFF, colorB := 0xFF6600 }
  , { id := "collections-canvas-1", colorA := 0xFF00FF, colorB := 0x00CC66 }
  , { id := "collections-canvas-2", colorA := 0xFFFF00, colorB := 0x6600CC }
  , { id := "collections-canvas-3", colorA := 0x00FFFF, colorB := 0xFF00FF }
  , { id := "testimonials-canvas-1", colorA := 0x00CC66, colorB := 0xFFFF00 }
  , { id := "testimonials-canvas-2", colorA := 0xFF6600, colorB := 0x00FFFF }
  , { id := "testimonials-canvas-3", colorA := 0x6600CC, colorB := 0xFF00FF }
  , { id := "events-canvas-1", colorA := 0x00FFFF, colorB := 0x00CC66 }
  , { id := "events-canvas-2", colorA := 0xFF00FF, colorB := 0xFFFF00 }
  , { id := "faq-canvas-1", colorA := 0xFFFF00, colorB := 0x6600CC }
  , { id := "faq-canvas-2", colorA := 0x00CC66, colorB := 0xFF6600 }
  , { id := "careers-canvas-1", colorA := 0xFF6600, colorB := 0x00FFFF }
  , { id := "careers-canvas-2", colorA := 0x6600CC, colorB := 0x00CC66 }
  , { id := "contact-canvas-1", colorA := 0x00FFFF, colorB := 0xFF00FF }
  , { id := "contact-canvas-2", colorA := 0xFFFF00, colorB := 0xFF6600 } ]

/-- The AnimationManager together with its pending staggered creation
tasks. `animators` is the registry in insertion order (keys of the
`Map`, unique across `cardConfigs`); the per-binding animator values are
not needed by the pool-level claims. `warnings` records the target ids
the ThreeJSAnimator constructor warned about (`Canvas ... not found`).
`pendingConfigs` holds the `setTimeout` creation tasks scheduled by
`initCardAnimations` that have not fired yet, in firing order. -/
structure ManagerState where
  animators : List String
  pendingConfigs : List CardConfig
  warnings : List String
deriving DecidableEq

/-- `AnimationManager.initCardAnimations`: every card config is handed to
`setTimeout` with its staggered delay; nothing is created synchronously. -/
def AnimationManager.initCardAnimations (configs : List CardConfig) (m : ManagerState) : ManagerState :=
  { m with pendingConfigs := m.pendingConfigs ++ configs }

/-- One staggered `setTimeout` callback firing: construct the animator
(the constructor warns and bails out when `document.getElementById`
finds no canvas), and only when `animator.canvas` is set add the three
random objects and register the animator under its id. The surrounding
`try`/`catch` prevents any abort. -/
def fireCreation (present : String → Bool) (m : ManagerState) : ManagerState :=
  match m.pendingConfigs with
  | [] => m
  | c :: rest =>
      if present c.id then
        { m with pendingConfigs := rest, animators := m.animators ++ [c.id] }
      else
        { m with pendingConfigs := rest, warnings := m.warnings ++ [c.id] }

/-- `AnimationManager.dispose`: dispose every registered animator and
clear the registry. The pending `setTimeout` tasks are not touched — the
code keeps no cancellation flag. -/
def AnimationManager.dispose (m : ManagerState) : ManagerState :=
  { m with animators := [] }

/-- Pool-level events: a staggered creation timer firing, or a
`dispose()` call on the manager. -/
inductive PoolEvent where
  | timerFired
  | disposeCalled

/-- One pool event step. -/
def stepPool (present : String → Bool) (m : ManagerState) (e : PoolEvent) : ManagerState :=
  match e with
  | .timerFired => fireCreation present m
  | .disposeCalled => AnimationManager.dispose m

/-- Run a sequence of pool events. -/
def runPool (present : String → Bool) (m : ManagerState) (events : List PoolEvent) : ManagerState :=
  events.foldl (stepPool present) m

example : (GateState.init sinZero cosZero 0 1 2).binding.pendingFrames = [1] := by decide
example : (GateState.init sinZero cosZero 0 1 2).binding.isPlaying = true := by decide

lemma filter_self_idem (p : ℕ → Bool) (l : List ℕ) :
    (l.filter p).filter p = l.filter p := by
  induction l with
  | nil => rfl
  | cons h t ih =>
      by_cases hp : p h <;> simp [List.filter_cons, hp, ih]

lemma updateObject_userData (sinF : ℚ → ℚ) (t : ℚ) (i : ℕ) (o : Mesh) :
    (updateObject sinF t i o).userData = o.userData := rfl

lemma mapIdx_userData (sinF : ℚ → ℚ) (t : ℚ) (objs : List Mesh) :
    ∀ n : ℕ, (mapIdx (updateObject sinF t) n objs).map Mesh.userData
      = objs.map Mesh.userData := by
  induction objs with
  | nil => intro n; rfl
  | cons o rest ih => intro n; simp [mapIdx, updateObject_userData, ih]

/-- The scheduling invariant of one binding: while playing, `animationId`
holds the handle of the single outstanding frame request; while paused,
no request is outstanding. -/
def SchedulerInv (s : AnimatorState) : Prop :=
  if s.isPlaying then
    s.animationId.isSome = true ∧ s.pendingFrames = s.animationId.toList
  else s.pendingFrames = []

lemma schedulerInv_animate (sinF cosF : ℚ → ℚ) (t : ℚ) (s : AnimatorState)
    (h : s.pendingFrames = []) :
    SchedulerInv (ThreeJSAnimator.animate sinF cosF t s) := by
  by_cases hp : s.isPlaying
  · simp [ThreeJSAnimator.animate, hp, SchedulerInv, requestFrame, h]
  · simp [ThreeJSAnimator.animate, hp, SchedulerInv, h]

lemma schedulerInv_play (sinF cosF : ℚ → ℚ) (t : ℚ) (s : AnimatorState)
    (hinv : SchedulerInv s) :
    SchedulerInv (ThreeJSAnimator.play sinF cosF t s) := by
  by_cases hp : s.isPlaying
  · simpa [ThreeJSAnimator.play, hp] using hinv
  · have hpend : s.pendingFrames = [] := by simpa [SchedulerInv, hp] using hinv
    simp only [ThreeJSAnimator.play, hp, if_false, Bool.false_eq_true]
    exact schedulerInv_animate sinF cosF t _ hpend

lemma schedulerInv_pause (s : AnimatorState) (hinv : SchedulerInv s) :
    SchedulerInv (ThreeJSAnimator.pause s) := by
  cases ha : s.animationId with
  | none =>
      by_cases hp : s.isPlaying
      · exfalso
        have := (by simpa [SchedulerInv, hp] using hinv : s.animationId.isSome = true ∧ _)
        rw [ha] at this
        simpa using this.1
      · have hpend : s.pendingFrames = [] := by simpa [SchedulerInv, hp] using hinv
        simp [ThreeJSAnimator.pause, ha, SchedulerInv, hpend]
  | some h0 =>
      by_cases hp : s.isPlaying
      · have hpend : s.pendingFrames = s.animationId.toList := by
          have := (by simpa [SchedulerInv, hp] using hinv : s.animationId.isSome = true ∧ _)
          exact this.2
        rw [ha] at hpend
        simp [ThreeJSAnimator.pause, ha, SchedulerInv, cancelFrame, hpend]
      · have hpend : s.pendingFrames = [] := by simpa [SchedulerInv, hp] using hinv
        simp [ThreeJSAnimator.pause, ha, SchedulerInv, cancelFrame, hpend]

lemma schedulerInv_dispose (s : AnimatorState) (hinv : SchedulerInv s) :
    SchedulerInv (ThreeJSAnimator.dispose s) := by
  have h := schedulerInv_pause s hinv
  simpa [ThreeJSAnimator.dispose, SchedulerInv] using h

lemma schedulerInv_fireFrame (sinF cosF : ℚ → ℚ) (t : ℚ) (s : AnimatorState)
    (hinv : SchedulerInv s) :
    SchedulerInv (fireFrame sinF cosF t s) := by
  cases hpf : s.pendingFrames with
  | nil => simpa [fireFrame, hpf] using hinv
  | cons h0 rest =>
      by_cases hp : s.isPlaying
      · have hpend : s.pendingFrames = s.animationId.toList := by
          have := (by simpa [SchedulerInv, hp] using hinv : s.animationId.isSome = true ∧ _)
          exact this.2
        have hrest : rest = [] := by
          cases hk : s.animationId with
          | none => rw [hk] at hpend; rw [hpf] at hpend; simp at hpend
          | some k => rw [hk] at hpend; rw [hpf] at hpend; simp at hpend; exact hpend.2
        subst hrest
        simp only [fireFrame, hpf]
        exact schedulerInv_animate sinF cosF t _ rfl
      · exfalso
        have hpend : s.pendingFrames = [] := by simpa [SchedulerInv, hp] using hinv
        rw [hpf] at hpend
        simp at hpend

lemma schedulerInv_step (sinF cosF : ℚ → ℚ) (g : GateState) (e : AnimatorEvent)
    (hinv : SchedulerInv g.binding) :
    SchedulerInv ((stepGate sinF cosF g e).binding) := by
  cases e with
  | frameFired t => exact schedulerInv_fireFrame sinF cosF t _ hinv
  | playCalled t => exact schedulerInv_play sinF cosF t _ hinv
  | pauseCalled => exact schedulerInv_pause _ hinv
  | disposeCalled => exact schedulerInv_dispose _ hinv
  | visibilityChanged hidden t =>
      cases hidden
      · exact schedulerInv_play sinF cosF t _ hinv
      · exact schedulerInv_pause _ hinv
  | intersectionChanged q t =>
      by_cases hq : intersectionThreshold ≤ q
      · simp only [stepGate, hq, if_true]
        exact schedulerInv_play sinF cosF t _ hinv
      · simp only [stepGate, hq, if_false]
        exact schedulerInv_pause _ hinv

lemma schedulerInv_runGate (sinF cosF : ℚ → ℚ) (evs : List AnimatorEvent) :
    ∀ g : GateState, SchedulerInv g.binding →
      SchedulerInv ((runGate sinF cosF g evs).binding) := by
  induction evs with
  | nil => intro g h; exact h
  | cons e rest ih =>
      intro g h
      exact ih (stepGate sinF cosF g e) (schedulerInv_step sinF cosF g e h)

lemma schedulerInv_init (sinF cosF : ℚ → ℚ) (t : ℚ) (c1 c2 : ℕ) :
    SchedulerInv (GateState.init sinF cosF t c1 c2).binding :=
  schedulerInv_animate sinF cosF t _ rfl

/-- C4: for every binding state, calling `dispose()` twice produces the
same end state as calling it once; being a total function of the state it
never throws, and the second call is a no-op. -/
theorem C4_dispose_idempotent (s : AnimatorState) :
    ThreeJSAnimator.dispose (ThreeJSAnimator.dispose s) = ThreeJSAnimator.dispose s := by
  cases ha : s.animationId with
  | none => simp [ThreeJSAnimator.dispose, ThreeJSAnimator.pause, ha]
  | some h0 =>
      simp [ThreeJSAnimator.dispose, ThreeJSAnimator.pause, ha, cancelFrame,
            filter_self_idem]

/-- C9: the per-frame color update writes a color computed from elapsed
time and the object's index alone — `HSL((time*0.1 + index*0.1) % 1,
0.7, 0.6)` — so any two objects (in particular the same object created
under two different palettes) carry identical material colors after one
frame update; the creation-time palette choice has no influence. -/
theorem C9_color_independent_of_palette (sinF : ℚ → ℚ) (t : ℚ) (i : ℕ) (o1 o2 : Mesh) :
    (updateObject sinF t i o1).material.color = (updateObject sinF t i o2).material.color
    ∧ (updateObject sinF t i o1).material.color
        = Color.hsl (jsMod1 (t * (1/10) + (i : ℚ) * (1/10))) (7/10) (3/5) := by
  exact ⟨rfl, rfl⟩

/-- C10: `dispose()` records no disposed flag, so a later `play()` finds
`isPlaying = false`, raises the flag, schedules a new frame request and
runs the loop over the now-empty object list. -/
theorem C10_play_after_dispose (sinF cosF : ℚ → ℚ) (t : ℚ) (s : AnimatorState) :
    (ThreeJSAnimator.dispose s).isPlaying = false
    ∧ (ThreeJSAnimator.play sinF cosF t (ThreeJSAnimator.dispose s)).isPlaying = true
    ∧ (ThreeJSAnimator.play sinF cosF t (ThreeJSAnimator.dispose s)).pendingFrames.length
        = (ThreeJSAnimator.dispose s).pendingFrames.length + 1
    ∧ (ThreeJSAnimator.play sinF cosF t (ThreeJSAnimator.dispose s)).objects = [] := by
  have hdp : (ThreeJSAnimator.dispose s).isPlaying = false := by
    cases ha : s.animationId <;>
      simp [ThreeJSAnimator.dispose, ThreeJSAnimator.pause, ha, cancelFrame]
  have hobj : (ThreeJSAnimator.dispose s).objects = [] := by
    cases ha : s.animationId <;>
      simp [ThreeJSAnimator.dispose, ThreeJSAnimator.pause, ha, cancelFrame]
  refine ⟨hdp, ?_, ?_, ?_⟩ <;>
    simp [ThreeJSAnimator.play, hdp, ThreeJSAnimator.animate, requestFrame,
          ThreeJSAnimator.animateObjects, hobj, mapIdx]

/-- C6: along every event sequence from binding creation, at most one
frame request is outstanding, and a paused binding has no outstanding
request. -/
theorem C6_frame_request_invariant (sinF cosF : ℚ → ℚ) (t0 : ℚ) (c1 c2 : ℕ)
    (evs : List AnimatorEvent) :
    ((runGate sinF cosF (GateState.init sinF cosF t0 c1 c2) evs).binding.pendingFrames.length ≤ 1)
    ∧ ((runGate sinF cosF (GateState.init sinF cosF t0 c1 c2) evs).binding.isPlaying = false →
        (runGate sinF cosF (GateState.init sinF cosF t0 c1 c2) evs).binding.pendingFrames = []) := by
  have hinv := schedulerInv_runGate sinF cosF evs _ (schedulerInv_init sinF cosF t0 c1 c2)
  set s := (runGate sinF cosF (GateState.init sinF cosF t0 c1 c2) evs).binding with hs
  by_cases hp : s.isPlaying
  · have h2 : s.pendingFrames = s.animationId.toList := by
      have := (by simpa [SchedulerInv, hp] using hinv : s.animationId.isSome = true ∧ _)
      exact this.2
    constructor
    · rw [h2]; cases s.animationId <;> simp
    · intro hfalse; rw [hp] at hfalse; cases hfalse
  · have h2 : s.pendingFrames = [] := by simpa [SchedulerInv, hp] using hinv
    exact ⟨by rw [h2]; simp, fun _ => h2⟩

/-- C6 witness: the invariant instantiated after a concrete `pause()`
event — the binding is paused and indeed has no outstanding request. -/
theorem C6_frame_request_invariant_witness :
    (runGate sinZero cosZero (GateState.init sinZero cosZero 0 1 2)
        [AnimatorEvent.pauseCalled]).binding.isPlaying = false
    ∧ (runGate sinZero cosZero (GateState.init sinZero cosZero 0 1 2)
        [AnimatorEvent.pauseCalled]).binding.pendingFrames = [] :=
  ⟨by decide,
   (C6_frame_request_invariant sinZero cosZero 0 1 2 [AnimatorEvent.pauseCalled]).2 (by decide)⟩


instance (s : AnimatorState) : Decidable (SchedulerInv s) := by
  unfold SchedulerInv; infer_instance

lemma play_isPlaying (sinF cosF : ℚ → ℚ) (t : ℚ) (s : AnimatorState) :
    (ThreeJSAnimator.play sinF cosF t s).isPlaying = true := by
  by_cases hp : s.isPlaying
  · simp [ThreeJSAnimator.play, hp]
  · simp [ThreeJSAnimator.play, hp, ThreeJSAnimator.animate, requestFrame]

lemma pause_isPlaying (s : AnimatorState) :
    (ThreeJSAnimator.pause s).isPlaying = false := by
  cases ha : s.animationId <;> simp [ThreeJSAnimator.pause, ha, cancelFrame]

/-- C1 counterexample: from a fresh binding, let the element leave the
viewport (intersection fraction 0, below the 10% threshold) and then let
the document report foregrounded. The `visibilitychange` listener calls
`play()` on its own reading alone, so the binding ends up Running while
the element-intersection source still reports not-visible — refuting
"Running iff both sources visible". -/
theorem C1_counterexample :
    (runGate sinZero cosZero (GateState.init sinZero cosZero 0 1 2)
        [AnimatorEvent.intersectionChanged 0 1,
         AnimatorEvent.visibilityChanged false 2]).binding.isPlaying = true
    ∧ (runGate sinZero cosZero (GateState.init sinZero cosZero 0 1 2)
        [AnimatorEvent.intersectionChanged 0 1,
         AnimatorEvent.visibilityChanged false 2]).documentHidden = false
    ∧ (runGate sinZero cosZero (GateState.init sinZero cosZero 0 1 2)
        [AnimatorEvent.intersectionChanged 0 1,
         AnimatorEvent.visibilityChanged false 2]).lastFraction
        < intersectionThreshold := by
  norm_num [runGate, stepGate, GateState.init, ThreeJSAnimator.new,
    ThreeJSAnimator.animate, ThreeJSAnimator.play, ThreeJSAnimator.pause,
    cancelFrame, requestFrame, ThreeJSAnimator.animateObjects, mapIdx,
    intersectionThreshold, sinZero, cosZero]

/-- What a visibility event reports for its own source: `some visible`
for the two listener events, `none` for the rest. -/
def sourceVisible : AnimatorEvent → Option Bool
  | .visibilityChanged hidden _ => some (!hidden)
  | .intersectionChanged q _ => some (decide (intersectionThreshold ≤ q))
  | _ => none

/-- C1 amended: the two visibility sources are wired as independent
listeners with no combination logic, so after processing a visibility
event the binding is Running exactly when that event's own source
reported visible (last writer wins) — regardless of what the other
source last reported. -/
theorem C1_amended_last_source_wins (sinF cosF : ℚ → ℚ) (g : GateState)
    (e : AnimatorEvent) (b : Bool) (h : sourceVisible e = some b) :
    (stepGate sinF cosF g e).binding.isPlaying = b := by
  cases e with
  | frameFired t => exact absurd h (by simp [sourceVisible])
  | playCalled t => exact absurd h (by simp [sourceVisible])
  | pauseCalled => exact absurd h (by simp [sourceVisible])
  | disposeCalled => exact absurd h (by simp [sourceVisible])
  | visibilityChanged hidden t =>
      have hb : b = !hidden := by
        simp [sourceVisible] at h
        cases hidden <;> cases b <;> simp_all
      subst hb
      cases hidden
      · simpa [stepGate] using play_isPlaying sinF cosF t g.binding
      · simpa [stepGate] using pause_isPlaying g.binding
  | intersectionChanged q t =>
      have hb : b = decide (intersectionThreshold ≤ q) := by
        simp [sourceVisible] at h
        exact h.symm
      subst hb
      by_cases hq : intersectionThreshold ≤ q
      · simpa [stepGate, hq] using play_isPlaying sinF cosF t g.binding
      · simpa [stepGate, hq] using pause_isPlaying g.binding

/-- C1 amended witness: an intersection event reporting fraction 0 (below
the threshold) leaves the binding Paused. -/
theorem C1_amended_witness :
    sourceVisible (AnimatorEvent.intersectionChanged 0 1) = some false
    ∧ (stepGate sinZero cosZero (GateState.init sinZero cosZero 0 1 2)
        (AnimatorEvent.intersectionChanged 0 1)).binding.isPlaying = false :=
  ⟨by norm_num [sourceVisible, intersectionThreshold],
   C1_amended_last_source_wins sinZero cosZero (GateState.init sinZero cosZero 0 1 2)
     (AnimatorEvent.intersectionChanged 0 1) false
     (by norm_num [sourceVisible, intersectionThreshold])⟩

/-- Concrete draws for the C3 counterexample: every draw is 1/2 except
the x-rotation-speed draw, giving the object the nonzero per-axis
rotation velocity (0.9 - 0.5) * 0.02 = 1/125. -/
def drawsA : RandomDraws :=
  { colorPick := 1/2, posX := 1/2, posY := 1/2, posZ := 1/2
    rotX := 1/2, rotY := 1/2, rotZ := 1/2
    rotSpeedX := 9/10, rotSpeedY := 1/2, rotSpeedZ := 1/2
    floatSpeedDraw := 1/2, floatAmountDraw := 1/2, pulseSpeedDraw := 1/2 }

/-- A freshly constructed binding holding one object built from
`drawsA`. -/
def pausePlayDemo : AnimatorState :=
  (ThreeJSAnimator.createFloatingGeometry "cube" {} drawsA
    (GateState.init sinZero cosZero 0 1 2).binding).1

/-- C3 counterexample: `play()` invokes `animate()` synchronously, which
advances each object's rotation by its per-axis velocity before
returning, so after `pause(); play()` the object's rotation differs from
its value at the moment of the pause (here by 1/125 on the x axis). -/
theorem C3_counterexample :
    (ThreeJSAnimator.play sinZero cosZero 0
        (ThreeJSAnimator.pause pausePlayDemo)).objects.map (fun o => o.rotation.x)
      ≠ pausePlayDemo.objects.map (fun o => o.rotation.x) := by
  norm_num [pausePlayDemo, drawsA, ThreeJSAnimator.createFloatingGeometry,
    mkFloatingMesh, mkMaterial, mergeConfig, GateState.init, ThreeJSAnimator.new,
    ThreeJSAnimator.animate, ThreeJSAnimator.play, ThreeJSAnimator.pause,
    cancelFrame, requestFrame, ThreeJSAnimator.animateObjects, mapIdx,
    updateObject, sinZero, cosZero, mathPI, jsMod1]

/-- C3 amended: `pause()` itself leaves every object untouched, and
`play()` immediately after resumes scheduling (exactly one new frame
request) and applies exactly one ordinary frame update to the objects as
they stood at the pause — nothing is reset: the immutable animation
profiles (rotation velocity, float/pulse parameters, origin position,
base scale) are carried over unchanged. -/
theorem C3_amended_one_step_no_reset (sinF cosF : ℚ → ℚ) (t : ℚ) (s : AnimatorState)
    (hplay : s.isPlaying = true) (hinv : SchedulerInv s) :
    (ThreeJSAnimator.pause s).objects = s.objects
    ∧ (ThreeJSAnimator.play sinF cosF t (ThreeJSAnimator.pause s)).objects
        = ThreeJSAnimator.animateObjects sinF t s.objects
    ∧ (ThreeJSAnimator.play sinF cosF t (ThreeJSAnimator.pause s)).objects.map Mesh.userData
        = s.objects.map Mesh.userData
    ∧ (ThreeJSAnimator.play sinF cosF t (ThreeJSAnimator.pause s)).isPlaying = true
    ∧ (ThreeJSAnimator.play sinF cosF t (ThreeJSAnimator.pause s)).pendingFrames.length = 1 := by
  have hpo : (ThreeJSAnimator.pause s).objects = s.objects := by
    cases ha : s.animationId <;> simp [ThreeJSAnimator.pause, ha, cancelFrame]
  have hpf : (ThreeJSAnimator.pause s).isPlaying = false := pause_isPlaying s
  have hpend : (ThreeJSAnimator.pause s).pendingFrames = [] := by
    have h := schedulerInv_pause s hinv
    simpa [SchedulerInv, hpf] using h
  have hstep : ThreeJSAnimator.play sinF cosF t (ThreeJSAnimator.pause s)
      = ThreeJSAnimator.animate sinF cosF t { ThreeJSAnimator.pause s with isPlaying := true } := by
    simp [ThreeJSAnimator.play, hpf]
  refine ⟨hpo, ?_, ?_, ?_, ?_⟩ <;> rw [hstep] <;>
    simp [ThreeJSAnimator.animate, requestFrame, hpo, hpend,
          ThreeJSAnimator.animateObjects, mapIdx_userData]

/-- C3 amended witness: instantiated on a fresh (Running, invariant-
satisfying) binding — after `pause(); play()` it is Running again with
exactly one outstanding frame request. -/
theorem C3_amended_witness :
    (GateState.init sinZero cosZero 0 1 2).binding.isPlaying = true
    ∧ SchedulerInv (GateState.init sinZero cosZero 0 1 2).binding
    ∧ (ThreeJSAnimator.play sinZero cosZero 0
        (ThreeJSAnimator.pause (GateState.init sinZero cosZero 0 1 2).binding)).pendingFrames.length = 1 :=
  ⟨by decide, by decide,
   (C3_amended_one_step_no_reset sinZero cosZero 0
      (GateState.init sinZero cosZero 0 1 2).binding (by decide) (by decide)).2.2.2.2⟩

/-- C2: evaluation of the code at the failing input — a pool with one
staggered creation still pending (target present) receives `dispose()`,
then the pending timer fires: the animator is created and registered
anyway, because `AnimationManager.dispose` keeps no cancellation flag
and the `setTimeout` callbacks are never cancelled. -/
theorem C2_pending_creation_after_dispose :
    (runPool (fun _ => true)
        (AnimationManager.initCardAnimations
          [{ id := "about-canvas-1", colorA := 0x00FFFF, colorB := 0x6600CC }]
          { animators := [], pendingConfigs := [], warnings := [] })
        [PoolEvent.disposeCalled, PoolEvent.timerFired]).animators
      = ["about-canvas-1"] := by decide

lemma length_filter_partition (p : CardConfig → Bool) (l : List CardConfig) :
    (l.filter p).length + (l.filter (fun c => !p c)).length = l.length := by
  induction l with
  | nil => rfl
  | cons c rest ih => by_cases hc : p c <;> simp [List.filter_cons, hc] <;> omega

lemma runPool_timers (present : String → Bool) (configs : List CardConfig) :
    ∀ a w : List String,
      runPool present
        { animators := a, pendingConfigs := configs, warnings := w }
        (List.replicate configs.length PoolEvent.timerFired)
      = { animators := a ++ (configs.filter (fun c => present c.id)).map CardConfig.id
          pendingConfigs := []
          warnings := w ++ (configs.filter (fun c => !present c.id)).map CardConfig.id } := by
  induction configs with
  | nil => intro a w; simp [runPool]
  | cons c rest ih =>
      intro a w
      have hrep : List.replicate (c :: rest).length PoolEvent.timerFired
          = PoolEvent.timerFired :: List.replicate rest.length PoolEvent.timerFired := by
        simp [List.replicate_succ]
      rw [hrep]
      by_cases hc : present c.id
      · have hstep : stepPool present
            { animators := a, pendingConfigs := c :: rest, warnings := w } PoolEvent.timerFired
            = { animators := a ++ [c.id], pendingConfigs := rest, warnings := w } := by
          simp [stepPool, fireCreation, hc]
        have hfold : runPool present
            { animators := a, pendingConfigs := c :: rest, warnings := w }
            (PoolEvent.timerFired :: List.replicate rest.length PoolEvent.timerFired)
            = runPool present
              { animators := a ++ [c.id], pendingConfigs := rest, warnings := w }
              (List.replicate rest.length PoolEvent.timerFired) := by
          simp [runPool, hstep]
        rw [hfold, ih (a ++ [c.id]) w]
        simp [List.filter_cons, hc]
      · have hstep : stepPool present
            { animators := a, pendingConfigs := c :: rest, warnings := w } PoolEvent.timerFired
            = { animators := a, pendingConfigs := rest, warnings := w ++ [c.id] } := by
          simp [stepPool, fireCreation, hc]
        have hfold : runPool present
            { animators := a, pendingConfigs := c :: rest, warnings := w }
            (PoolEvent.timerFired :: List.replicate rest.length PoolEvent.timerFired)
            = runPool present
              { animators := a, pendingConfigs := rest, warnings := w ++ [c.id] }
              (List.replicate rest.length PoolEvent.timerFired) := by
          simp [runPool, hstep]
        rw [hfold, ih a (w ++ [c.id])]
        simp [List.filter_cons, hc]

/-- The complete card-initialization run: `initCardAnimations` schedules
every config, then every staggered timer fires in order. -/
def poolRun (present : String → Bool) (configs : List CardConfig) : ManagerState :=
  runPool present
    (AnimationManager.initCardAnimations configs
      { animators := [], pendingConfigs := [], warnings := [] })
    (List.replicate configs.length PoolEvent.timerFired)

/-- C5: initializing the pool over K configured targets of which M are
missing registers exactly K−M bindings, records M warnings, and
processes every config (nothing aborts: the pending queue drains
completely). -/
theorem C5_pool_init_counts (present : String → Bool) (configs : List CardConfig) :
    (poolRun present configs).animators.length
        = (configs.filter (fun c => present c.id)).length
    ∧ (poolRun present configs).warnings.length
        = (configs.filter (fun c => !present c.id)).length
    ∧ (poolRun present configs).animators.length
        = configs.length - (poolRun present configs).warnings.length
    ∧ (poolRun present configs).pendingConfigs = [] := by
  have hinit : AnimationManager.initCardAnimations configs
      { animators := [], pendingConfigs := [], warnings := [] }
      = { animators := [], pendingConfigs := configs, warnings := [] } := by
    simp [AnimationManager.initCardAnimations]
  have hrun := runPool_timers present configs [] []
  have hpart := length_filter_partition (fun c => present c.id) configs
  refine ⟨?_, ?_, ?_, ?_⟩ <;> simp [poolRun, hinit, hrun] <;> omega

lemma tags_of_supported (config : GeometryConfig) :
    supportedTypes.map (fun t => geometryTag (createGeometry t config))
      = [0, 1, 2, 3, 4, 5] := rfl

/-- C7: every `createFloatingGeometry` call appends exactly one object to
the binding's owned collection; the six supported shape kinds map to six
pairwise-distinct geometric primitives; and an unrecognized shape kind
builds exactly the sphere of the `'sphere'` case (fallback, never an
error — the operation is total). -/
theorem C7_shape_mapping (typ : String) (options : GeometryOptions)
    (draws : RandomDraws) (s : AnimatorState) :
    (ThreeJSAnimator.createFloatingGeometry typ options draws s).1.objects.length
        = s.objects.length + 1
    ∧ List.Pairwise
        (fun a b => createGeometry a (mergeConfig options) ≠ createGeometry b (mergeConfig options))
        supportedTypes
    ∧ (typ ∉ supportedTypes →
        createGeometry typ (mergeConfig options) = createGeometry "sphere" (mergeConfig options)) := by
  refine ⟨?_, ?_, ?_⟩
  · simp [ThreeJSAnimator.createFloatingGeometry]
  · have hp : List.Pairwise (fun a b : ℕ => a ≠ b)
        (supportedTypes.map (fun t => geometryTag (createGeometry t (mergeConfig options)))) := by
      rw [tags_of_supported]; decide
    exact (List.pairwise_map.mp hp).imp (fun hab h => hab (congrArg geometryTag h))
  · intro hmem
    simp [supportedTypes] at hmem
    obtain ⟨h1, h2, h3, h4, h5, h6⟩ := hmem
    unfold createGeometry
    split <;> simp_all

/-- C7 witness: the unrecognized shape kind "blob" is not among the six
supported kinds and falls back to the sphere primitive. -/
theorem C7_shape_mapping_witness :
    ("blob" ∉ supportedTypes)
    ∧ createGeometry "blob" (mergeConfig {}) = createGeometry "sphere" (mergeConfig {}) :=
  ⟨by decide,
   (C7_shape_mapping "blob" {} drawsA (GateState.init sinZero cosZero 0 1 2).binding).2.2
     (by decide)⟩

/-- The half-open unit interval `[0, 1)` that `Math.random()` draws
from. -/
def inUnitRange (q : ℚ) : Prop := 0 ≤ q ∧ q < 1

/-- Every `Math.random()` draw of one `createFloatingGeometry` call lies
in `[0, 1)`. -/
def DrawsInRange (d : RandomDraws) : Prop :=
  inUnitRange d.colorPick ∧ inUnitRange d.posX ∧ inUnitRange d.posY ∧ inUnitRange d.posZ
  ∧ inUnitRange d.rotX ∧ inUnitRange d.rotY ∧ inUnitRange d.rotZ
  ∧ inUnitRange d.rotSpeedX ∧ inUnitRange d.rotSpeedY ∧ inUnitRange d.rotSpeedZ
  ∧ inUnitRange d.floatSpeedDraw ∧ inUnitRange d.floatAmountDraw ∧ inUnitRange d.pulseSpeedDraw

lemma rotation_axis_range (d : ℚ) (h0 : 0 ≤ d) (h1 : d < 1) :
    0 ≤ d * mathPI * 2 ∧ d * mathPI * 2 < mathPI * 2 := by
  have hpi : (0:ℚ) < mathPI := by norm_num [mathPI]
  constructor
  · exact mul_nonneg (mul_nonneg h0 hpi.le) (by norm_num)
  · nlinarith

/-- C8: under draws in `[0, 1)`, every randomized attribute of a created
object lies within its documented bound: the material color is one of
the two palette colors; position x and y lie in `[-3, 3)` while z lies
in the narrower `[-3/2, 3/2)`; each rotation axis lies in
`[0, 2*Math.PI)`; the per-axis rotation velocity lies in
`[-1/100, 1/100)`; float frequency in `[1/200, 3/200)`; float amplitude
in `[1/5, 7/10)`; and pulse frequency in `[1/100, 3/100)`. -/
theorem C8_randomized_ranges (c1 c2 : ℕ) (typ : String) (options : GeometryOptions)
    (draws : RandomDraws) (h : DrawsInRange draws) :
    ((mkFloatingMesh c1 c2 typ options draws).material.color = Color.rgbHex c1
      ∨ (mkFloatingMesh c1 c2 typ options draws).material.color = Color.rgbHex c2)
    ∧ (-3 ≤ (mkFloatingMesh c1 c2 typ options draws).position.x
        ∧ (mkFloatingMesh c1 c2 typ options draws).position.x < 3)
    ∧ (-3 ≤ (mkFloatingMesh c1 c2 typ options draws).position.y
        ∧ (mkFloatingMesh c1 c2 typ options draws).position.y < 3)
    ∧ (-(3/2) ≤ (mkFloatingMesh c1 c2 typ options draws).position.z
        ∧ (mkFloatingMesh c1 c2 typ options draws).position.z < 3/2)
    ∧ (0 ≤ (mkFloatingMesh c1 c2 typ options draws).rotation.x
        ∧ (mkFloatingMesh c1 c2 typ options draws).rotation.x < mathPI * 2)
    ∧ (0 ≤ (mkFloatingMesh c1 c2 typ options draws).rotation.y
        ∧ (mkFloatingMesh c1 c2 typ options draws).rotation.y < mathPI * 2)
    ∧ (0 ≤ (mkFloatingMesh c1 c2 typ options draws).rotation.z
        ∧ (mkFloatingMesh c1 c2 typ options draws).rotation.z < mathPI * 2)
    ∧ (-(1/100) ≤ (mkFloatingMesh c1 c2 typ options draws).userData.rotationSpeed.x
        ∧ (mkFloatingMesh c1 c2 typ options draws).userData.rotationSpeed.x < 1/100)
    ∧ (-(1/100) ≤ (mkFloatingMesh c1 c2 typ options draws).userData.rotationSpeed.y
        ∧ (mkFloatingMesh c1 c2 typ options draws).userData.rotationSpeed.y < 1/100)
    ∧ (-(1/100) ≤ (mkFloatingMesh c1 c2 typ options draws).userData.rotationSpeed.z
        ∧ (mkFloatingMesh c1 c2 typ options draws).userData.rotationSpeed.z < 1/100)
    ∧ (1/200 ≤ (mkFloatingMesh c1 c2 typ options draws).userData.floatSpeed
        ∧ (mkFloatingMesh c1 c2 typ options draws).userData.floatSpeed < 3/200)
    ∧ (1/5 ≤ (mkFloatingMesh c1 c2 typ options draws).userData.floatAmount
        ∧ (mkFloatingMesh c1 c2 typ options draws).userData.floatAmount < 7/10)
    ∧ (1/100 ≤ (mkFloatingMesh c1 c2 typ options draws).userData.pulseSpeed
        ∧ (mkFloatingMesh c1 c2 typ options draws).userData.pulseSpeed < 3/100) := by
  obtain ⟨hc, hx, hy, hz, hrx, hry, hrz, hsx, hsy, hsz, hfs, hfa, hps⟩ := h
  refine ⟨?_, ?_, ?_, ?_, ?_, ?_, ?_, ?_, ?_, ?_, ?_, ?_, ?_⟩
  · have hmat : (mkFloatingMesh c1 c2 typ options draws).material.color
        = Color.rgbHex (if draws.colorPick > 1/2 then c1 else c2) := rfl
    by_cases hcp : draws.colorPick > 1/2
    · left; rw [hmat, if_pos hcp]
    · right; rw [hmat, if_neg hcp]
  · constructor <;> simp [mkFloatingMesh] <;> [linarith [hx.1]; linarith [hx.2]]
  · constructor <;> simp [mkFloatingMesh] <;> [linarith [hy.1]; linarith [hy.2]]
  · constructor <;> simp [mkFloatingMesh] <;> [linarith [hz.1]; linarith [hz.2]]
  · simpa [mkFloatingMesh] using rotation_axis_range draws.rotX hrx.1 hrx.2
  · simpa [mkFloatingMesh] using rotation_axis_range draws.rotY hry.1 hry.2
  · simpa [mkFloatingMesh] using rotation_axis_range draws.rotZ hrz.1 hrz.2
  · constructor <;> simp [mkFloatingMesh] <;> [linarith [hsx.1]; linarith [hsx.2]]
  · constructor <;> simp [mkFloatingMesh] <;> [linarith [hsy.1]; linarith [hsy.2]]
  · constructor <;> simp [mkFloatingMesh] <;> [linarith [hsz.1]; linarith [hsz.2]]
  · constructor <;> simp [mkFloatingMesh] <;> [linarith [hfs.1]; linarith [hfs.2]]
  · constructor <;> simp [mkFloatingMesh] <;> [linarith [hfa.1]; linarith [hfa.2]]
  · constructor <;> simp [mkFloatingMesh] <;> [linarith [hps.1]; linarith [hps.2]]

/-- C8 witness: the concrete draws `drawsA` lie in `[0, 1)`, and the
object built from them has its x coordinate inside `[-3, 3)`. -/
theorem C8_randomized_ranges_witness :
    DrawsInRange drawsA
    ∧ (-3 ≤ (mkFloatingMesh 1 2 "sphere" {} drawsA).position.x
        ∧ (mkFloatingMesh 1 2 "sphere" {} drawsA).position.x < 3) :=
  ⟨by norm_num [DrawsInRange, inUnitRange, drawsA],
   (C8_randomized_ranges 1 2 "sphere" {} drawsA
      (by norm_num [DrawsInRange, inUnitRange, drawsA])).2.1⟩
